import Mathlib

/-!
Verification development for the chromiumoxide Handler event loop
(src/handler/mod.rs) and the composite HttpFuture (src/handler/httpfuture.rs).

The Rust code is shallowly embedded: HashMaps become association lists with
map semantics (unique keys; insert replaces, remove deletes the key), oneshot
senders become numeric channel identifiers and every send is recorded in an
output list, `Instant` becomes a millisecond count, and `panic!` becomes a
distinct outcome constructor of the step result.
-/

/-! ## Identifiers and basic wire data -/

abbrev CallId := Nat

abbrev NavigationId := Nat

abbrev TargetId := String

abbrev SessionId := String

/-- Numeric identifier standing for a oneshot sender; a send on channel `tx`
is recorded as an element of the step output list. -/
abbrev TxId := Nat

/-- Minimal JSON value model for the `serde_json::Value` payloads carried in
responses and command parameters. -/
inductive J where
  | null
  | bool (b : Bool)
  | num (n : Int)
  | str (s : String)
  | arr (elems : List J)
  | obj (fields : List (String × J))

/-- Wire-level protocol error carried in a response (`chromiumoxid_types`
error object; spec section 6: a response carries `error` on failure). -/
structure ChromeError where
  code : Int
  message : String

/-- Error kinds of the handler (`CdpError`), restricted to the variants the
embedded code paths construct (spec section 7). -/
inductive CdpError where
  | serde (msg : String)
  | chrome (err : ChromeError)
  | noResponse
  | navigation (kind : String)
  | timeout

/-- Wire response `{id, result?, error?}` (spec section 6) plus the `method`
slot that `to_command_response` copies into the decoded response. -/
structure Response where
  id : CallId
  result : Option J
  error : Option ChromeError
  method : String

/-- Decoded response of a command, `chromiumoxid_types::CommandResponse`. -/
structure CommandResponse (R : Type) where
  id : CallId
  result : R
  method : String

/-! ## Association-list maps

The handler's `HashMap`/`FnvHashMap` fields are embedded as association
lists; `insertA` replaces the binding of an existing key, `eraseA` deletes
it, `modifyA` rewrites the value in place (no-op when the key is absent,
matching the `if let Some(x) = map.get_mut(k)` pattern). -/

def lookupA {κ β : Type} [DecidableEq κ] : List (κ × β) → κ → Option β
  | [], _ => none
  | (k0, v0) :: rest, k => if k0 = k then some v0 else lookupA rest k

def eraseA {κ β : Type} [DecidableEq κ] : List (κ × β) → κ → List (κ × β)
  | [], _ => []
  | (k0, v0) :: rest, k => if k0 = k then eraseA rest k else (k0, v0) :: eraseA rest k

def insertA {κ β : Type} [DecidableEq κ] : List (κ × β) → κ → β → List (κ × β)
  | [], k, v => [(k, v)]
  | (k0, v0) :: rest, k, v =>
    if k0 = k then (k, v) :: rest else (k0, v0) :: insertA rest k v

def modifyA {κ β : Type} [DecidableEq κ] : List (κ × β) → κ → (β → β) → List (κ × β)
  | [], _, _ => []
  | (k0, v0) :: rest, k, f =>
    if k0 = k then (k0, f v0) :: rest else (k0, v0) :: modifyA rest k f

theorem lookupA_insertA_self {κ β : Type} [DecidableEq κ]
    (m : List (κ × β)) (k : κ) (v : β) : lookupA (insertA m k v) k = some v := by
  induction m with
  | nil => simp [insertA, lookupA]
  | cons hd tl ih =>
    obtain ⟨k0, v0⟩ := hd
    by_cases h : k0 = k
    · simp [insertA, h, lookupA]
    · simp [insertA, h, lookupA, ih]

theorem lookupA_eraseA_self {κ β : Type} [DecidableEq κ]
    (m : List (κ × β)) (k : κ) : lookupA (eraseA m k) k = none := by
  induction m with
  | nil => simp [eraseA, lookupA]
  | cons hd tl ih =>
    obtain ⟨k0, v0⟩ := hd
    by_cases h : k0 = k
    · simp [eraseA, h, ih]
    · simp [eraseA, h, lookupA, ih]

theorem insertA_of_lookupA_none {κ β : Type} [DecidableEq κ]
    (m : List (κ × β)) (k : κ) (v : β) (h : lookupA m k = none) :
    insertA m k v = m ++ [(k, v)] := by
  induction m with
  | nil => simp [insertA]
  | cons hd tl ih =>
    obtain ⟨k0, v0⟩ := hd
    by_cases hk : k0 = k
    · simp [lookupA, hk] at h
    · simp [lookupA, hk] at h
      simp [insertA, hk, ih h]

theorem modifyA_id {κ β : Type} [DecidableEq κ]
    (m : List (κ × β)) (k : κ) : modifyA m k (fun v => v) = m := by
  induction m with
  | nil => rfl
  | cons hd tl ih =>
    obtain ⟨k0, v0⟩ := hd
    by_cases h : k0 = k <;> simp [modifyA, h, ih]

/-! ## Targets, sessions, events

`target.rs`, `session.rs` and `frame.rs` are not part of the provided
sources; the record shapes below are modelled from the spec (sections 3 and
4.4), restricted to what `handler/mod.rs` touches. -/

/-- Modelled from the spec: `TargetInfo` payload of target events (section 3,
"Target" attributes: target-id and target type). -/
structure TargetInfo where
  target_id : TargetId
  ty : String

/-- Modelled from the spec: the per-target state `handler/mod.rs` touches
(section 3 "Target"): the id, the optional current session-id, the initiator
channel installed by a CreateTarget response, and the inbox of responses fed
back by `PendingRequest::InternalCommand` dispatch. -/
structure Target where
  target_id : TargetId
  ty : String
  session_id : Option SessionId
  tx_page : Option TxId
  inbox : List Response

def Target.new (info : TargetInfo) : Target :=
  { target_id := info.target_id, ty := info.ty, session_id := none,
    tx_page := none, inbox := [] }

/-- Models `target.set_initiator(tx)`: the sender is moved into the target
(no message is emitted). -/
def Target.set_initiator (t : Target) (tx : TxId) : Target :=
  { t with tx_page := some tx }

/-- Models `target.on_response(resp)`: the response is fed back to the
target (embedded as an inbox append). -/
def Target.on_response (t : Target) (resp : Response) : Target :=
  { t with inbox := t.inbox ++ [resp] }

def Target.set_session_id (t : Target) (sid : SessionId) : Target :=
  { t with session_id := some sid }

/-- Models the statement `target.session_id().take();` in
`on_detached_from_target`. The call sites in `handler/mod.rs` force the
getter's shape: in `on_target_destroyed` it is called on a non-`mut` owned
binding and its result is passed to `HashMap::remove`, so `session_id` takes
`&self` and returns `Option<&SessionId>`. `.take()` therefore acts on the
returned temporary `Option` and the target's stored slot is unchanged. -/
def Target.session_id_take (t : Target) : Target :=
  t

/-- Modelled from the spec: `Session` (section 3): session-id, target type,
target-id, created by `Session::new` in `on_attached_to_target`. -/
structure Session where
  session_id : SessionId
  ty : String
  target_id : TargetId

def Session.new (sid : SessionId) (ty : String) (tid : TargetId) : Session :=
  { session_id := sid, ty := ty, target_id := tid }

structure EventTargetCreated where
  target_info : TargetInfo

structure EventAttachedToTarget where
  session_id : SessionId
  target_info : TargetInfo

structure EventTargetDestroyed where
  target_id : TargetId

structure EventDetachedFromTarget where
  session_id : SessionId

/-- Modelled from the spec: `NavigationOk` (frame.rs is absent); the handler
only reads its navigation id. -/
structure NavigationOk where
  navigation_id : NavigationId

/-- Modelled from the spec: `NavigationError` (frame.rs is absent); section 8
scenario 5 shows a kind string and the navigation id, and the handler reads
the id and converts the whole error via `.into()`. -/
structure NavigationError where
  navigation_id : NavigationId
  kind : String

/-- Models `err.into()` at the `Err` branch of
`on_navigation_lifecycle_completed`: a navigation error becomes the
navigation variant of `CdpError`. -/
def NavigationError.toCdpError (e : NavigationError) : CdpError :=
  .navigation e.kind

/-- Tag-level model of `CdpEvent` restricted to the events
`Handler::on_event` matches on; every other event falls into `other`. -/
inductive CdpEvent where
  | targetCreated (ev : EventTargetCreated)
  | attachedToTarget (ev : EventAttachedToTarget)
  | targetDestroyed (ev : EventTargetDestroyed)
  | detachedFromTarget (ev : EventDetachedFromTarget)
  | other (method : String)

/-- Incoming CDP event message: optional session id plus the event payload. -/
structure CdpEventMessage where
  session_id : Option SessionId
  params : CdpEvent

/-- Modelled from the spec: `target.on_event(event)` buffers incoming CDP
events on the target until handlers subscribe (section 4.4). -/
def Target.on_event (t : Target) (_ev : CdpEventMessage) : Target :=
  t

/-! ## Handler state -/

/-- Standard timeout in MS (`REQUEST_TIMEOUT` in `handler/mod.rs`). -/
def REQUEST_TIMEOUT : Nat := 30000

/-- `NavigationInProgress`: lifecycle flag, cached response, reply channel. -/
structure NavigationInProgress where
  navigated : Bool
  response : Option Response
  tx : TxId

def NavigationInProgress.new (tx : TxId) : NavigationInProgress :=
  { navigated := false, response := none, tx := tx }

def NavigationInProgress.set_response (nav : NavigationInProgress) (resp : Response) :
    NavigationInProgress :=
  { nav with response := some resp }

def NavigationInProgress.set_navigated (nav : NavigationInProgress) : NavigationInProgress :=
  { nav with navigated := true }

/-- `NavigationRequest`: single `Goto` variant wrapping the in-progress
navigation. -/
inductive NavigationRequest where
  | goto (nav : NavigationInProgress)

/-- `PendingRequest`: the four intents stored in the pending-command table. -/
inductive PendingRequest where
  | createTarget (tx : TxId)
  | navigate (id : NavigationId)
  | externalCommand (tx : TxId)
  | internalCommand (target_id : TargetId)

/-- The mutable state of `Handler` that the embedded functions touch:
pending commands, the target-ids list, the target registry, the navigation
table and the session table. -/
structure Handler where
  pending_commands : List (CallId × (PendingRequest × Nat))
  target_ids : List TargetId
  targets : List (TargetId × Target)
  navigations : List (NavigationId × NavigationRequest)
  sessions : List (SessionId × Session)

def Handler.empty : Handler :=
  { pending_commands := [], target_ids := [], targets := [],
    navigations := [], sessions := [] }

/-- One recorded effect on a oneshot channel. -/
inductive Sent where
  | resp (tx : TxId) (v : Except CdpError Response)
  | pageErr (tx : TxId) (e : CdpError)

/-- Outcome of a handler step: either a new state together with the list of
channel sends it performed, or a `panic!`. -/
inductive StepResult where
  | ok (s : Handler) (out : List Sent)
  | panic (msg : String)

/-! ## Response decoding -/

/-- `to_command_response` from `handler/mod.rs` lines 467-482, generic over
the command's declared response schema via its `decode` function (standing
for `serde_json::from_value::<T::Response>`): a present `result` slot is
decoded (decoding failure is a serde error), otherwise a present `error`
slot is returned as a protocol error, otherwise the `NoResponse` error. -/
def to_command_response {R : Type} (decode : J → Except String R)
    (resp : Response) : Except CdpError (CommandResponse R) :=
  match resp.result with
  | some res =>
    match decode res with
    | .ok result => .ok { id := resp.id, result := result, method := resp.method }
    | .error e => .error (.serde e)
  | none =>
    match resp.error with
    | some err => .error (.chrome err)
    | none => .error .noResponse

/-- Decode function of `CreateTargetResponse` (schema: an object holding the
created `targetId` string), used by the `PendingRequest::CreateTarget` arm of
`on_response`. -/
def decodeCreateTarget (j : J) : Except String TargetId :=
  match j with
  | .obj fields =>
    match lookupA fields "targetId" with
    | some (.str tid) => .ok tid
    | some _ => .error "invalid type: expected a string for targetId"
    | none => .error "missing field targetId"
  | _ => .error "invalid type: expected an object"

/-! ## Navigation coordinator (`handler/mod.rs` lines 106-148) -/

/-- `Handler::on_navigation_response`: remove the entry for `id`; if its
lifecycle already completed (`navigated`), send `Ok(resp)` and leave it
removed, otherwise store the response in the entry and reinsert it. -/
def on_navigation_response (s : Handler) (id : NavigationId) (resp : Response) :
    Handler × List Sent :=
  match lookupA s.navigations id with
  | none => (s, [])
  | some (.goto nav) =>
    let s1 := { s with navigations := eraseA s.navigations id }
    if nav.navigated then
      (s1, [.resp nav.tx (.ok resp)])
    else
      let navs := insertA s1.navigations id (.goto (nav.set_response resp))
      ({ s1 with navigations := navs }, [])

/-- `Handler::on_navigation_lifecycle_completed`: on `Ok`, remove the entry;
if a response is stored, send `Ok(response)` and leave the entry removed,
otherwise mark it navigated and reinsert. On `Err`, remove the entry and
send the converted error, regardless of any stored response. -/
def on_navigation_lifecycle_completed (s : Handler)
    (res : Except NavigationError NavigationOk) : Handler × List Sent :=
  match res with
  | .ok ok =>
    match lookupA s.navigations ok.navigation_id with
    | none => (s, [])
    | some (.goto nav) =>
      let s1 := { s with navigations := eraseA s.navigations ok.navigation_id }
      match nav.response with
      | some resp => (s1, [.resp nav.tx (.ok resp)])
      | none =>
        let navs := insertA s1.navigations ok.navigation_id (.goto nav.set_navigated)
        ({ s1 with navigations := navs }, [])
  | .error err =>
    match lookupA s.navigations err.navigation_id with
    | none => (s, [])
    | some (.goto nav) =>
      ({ s with navigations := eraseA s.navigations err.navigation_id },
       [.resp nav.tx (.error err.toCdpError)])

/-! ## Response dispatch (`handler/mod.rs` lines 151-184) -/

/-- `Handler::on_response`: remove the pending entry for the response's call
id (no entry: nothing happens) and dispatch on its intent. A CreateTarget
response is decoded; on success the initiator channel is moved onto the
created target, and a missing target is the source's
`panic!("Created target not present")`; a decode failure is sent to the
channel. A Navigate intent feeds the navigation coordinator. An external
command's response goes raw to its channel. An internal command's response
is fed to its target when the target still exists, else discarded. -/
def on_response (s : Handler) (resp : Response) : StepResult :=
  match lookupA s.pending_commands resp.id with
  | none => .ok s []
  | some (req, _instant) =>
    let s1 := { s with pending_commands := eraseA s.pending_commands resp.id }
    match req with
    | .createTarget tx =>
      match to_command_response decodeCreateTarget resp with
      | .ok cr =>
        match lookupA s1.targets cr.result with
        | some _ =>
          let ts := modifyA s1.targets cr.result (fun t => t.set_initiator tx)
          .ok { s1 with targets := ts } []
        | none => .panic "Created target not present"
      | .error err => .ok s1 [.pageErr tx err]
    | .navigate id =>
      let p := on_navigation_response s1 id resp
      .ok p.1 p.2
    | .externalCommand tx => .ok s1 [.resp tx (.ok resp)]
    | .internalCommand target_id =>
      let ts := modifyA s1.targets target_id (fun t => t.on_response resp)
      .ok { s1 with targets := ts } []

/-! ## Event handlers (`handler/mod.rs` lines 269-325) -/

/-- `Handler::on_target_created`: build the target, append its id to the
target-ids list, insert it into the registry. -/
def on_target_created (s : Handler) (event : EventTargetCreated) : Handler :=
  let target := Target.new event.target_info
  { s with
    target_ids := s.target_ids ++ [target.target_id],
    targets := insertA s.targets target.target_id target }

/-- `Handler::on_attached_to_target`: build the `Session` value and, when the
target exists, set the target's session id. The source never inserts the
session into `self.sessions`. -/
def on_attached_to_target (s : Handler) (event : EventAttachedToTarget) : Handler :=
  let session := Session.new event.session_id event.target_info.ty
    event.target_info.target_id
  let ts := modifyA s.targets session.target_id
    (fun t => t.set_session_id session.session_id)
  { s with targets := ts }

/-- `Handler::on_detached_from_target`: remove the session from the session
table; when its target exists, run `target.session_id().take()`, which
leaves the target unchanged (see `Target.session_id_take`). -/
def on_detached_from_target (s : Handler) (event : EventDetachedFromTarget) : Handler :=
  match lookupA s.sessions event.session_id with
  | none => s
  | some session =>
    let ts := modifyA s.targets session.target_id (fun t => t.session_id_take)
    { s with sessions := eraseA s.sessions event.session_id, targets := ts }

/-- `Handler::on_target_destroyed`: remove the target from the registry (the
target-ids list is untouched) and, when the removed target held a session
id, remove that session from the session table. -/
def on_target_destroyed (s : Handler) (event : EventTargetDestroyed) : Handler :=
  match lookupA s.targets event.target_id with
  | none => s
  | some target =>
    let s1 := { s with targets := eraseA s.targets event.target_id }
    match target.session_id with
    | some sid => { s1 with sessions := eraseA s1.sessions sid }
    | none => s1

/-- `Handler::on_event`: a session-scoped event whose session and target are
known is routed to the target; otherwise the four target events are
dispatched and every other tag is ignored. -/
def on_event (s : Handler) (event : CdpEventMessage) : Handler :=
  let routed :=
    match event.session_id with
    | some sid =>
      match lookupA s.sessions sid with
      | some session =>
        match lookupA s.targets session.target_id with
        | some _ => true
        | none => false
      | none => false
    | none => false
  if routed then
    match event.session_id with
    | some sid =>
      match lookupA s.sessions sid with
      | some session =>
        let ts := modifyA s.targets session.target_id (fun t => t.on_event event)
        { s with targets := ts }
      | none => s
    | none => s
  else
    match event.params with
    | .targetCreated ev => on_target_created s ev
    | .attachedToTarget ev => on_attached_to_target s ev
    | .targetDestroyed ev => on_target_destroyed s ev
    | .detachedFromTarget ev => on_detached_from_target s ev
    | .other _ => s

/-! ## Connection drain and periodic tick (`poll_next`, lines 389-402) -/

/-- An incoming connection item: a response or an event
(`chromiumoxid_types::Message`). -/
inductive Message where
  | response (resp : Response)
  | event (ev : CdpEventMessage)

/-- Models the connection-drain loop of `poll_next` (lines 389-397):
responses go to `on_response`, events to `on_event`, in arrival order; a
`panic!` aborts the loop. -/
def drain_conn : Handler → List Message → List Sent → StepResult
  | s, [], out => .ok s out
  | s, .response r :: rest, out =>
    match on_response s r with
    | .ok s1 out1 => drain_conn s1 rest (out ++ out1)
    | .panic m => .panic m
  | s, .event e :: rest, out => drain_conn (on_event s e) rest out

/-- Models steps 3 and 4 of the composite poll (`poll_next`, lines 389-402):
drain the connection messages, then check the periodic eviction job. The
body of the `is_ready` branch in the source is empty
(`// TODO evict all commands that timed out`), so the ready branch performs
no eviction and sends nothing. -/
def poll_messages_and_tick (s : Handler) (msgs : List Message)
    (timerReady : Bool) (_now : Nat) : StepResult :=
  match drain_conn s msgs [] with
  | .panic m => .panic m
  | .ok s1 out =>
    if timerReady then
      .ok s1 out
    else
      .ok s1 out

/-! ## HttpFuture (`handler/httpfuture.rs`) -/

/-- Modelled from the spec: the navigation's main-frame HTTP request
metadata (section 4.10); its content is irrelevant to the poll logic. -/
structure HttpRequest where
  url : String

/-- Outcome of polling a future once. -/
inductive PollRes (α : Type) where
  | ready (a : α)
  | pending

/-- State of `HttpFuture` relevant to its poll: whether the fused command
future has terminated (`Fuse` marks the inner future terminated once it has
returned `Ready`). -/
structure HttpFutureState where
  commandTerminated : Bool

/-- `HttpFuture::poll` (httpfuture.rs lines 43-60), with the two inner
futures abstracted as poll oracles. Returns the poll result, the next
state, and whether `self.navigation` was polled during this call. When the
command future is terminated, the call is exactly a poll of the navigation
future. Otherwise the command future is polled: `Ready(Ok(_))` discards the
command response, re-wakes the task and returns `Pending` (the fuse is now
terminated); `Ready(Err(e))` resolves the whole future with that error;
`Pending` stays pending. In the last three cases the navigation future is
never polled. -/
def HttpFuture.poll {γ : Type} (st : HttpFutureState)
    (commandPoll : PollRes (Except CdpError γ))
    (navPoll : PollRes (Except CdpError (Option HttpRequest))) :
    PollRes (Except CdpError (Option HttpRequest)) × HttpFutureState × Bool :=
  if st.commandTerminated then
    (navPoll, st, true)
  else
    match commandPoll with
    | .ready (.ok _) => (.pending, { commandTerminated := true }, false)
    | .ready (.error e) => (.ready (.error e), { commandTerminated := true }, false)
    | .pending => (.pending, st, false)

/-! ## Claim theorems -/

/-- Claim C1: for each of the two success orderings of a navigation
(navigate-command response before lifecycle completion, or the reverse), the
navigation's reply channel fires exactly once with `Ok(response)` and only
after both signals arrived; whichever signal arrives first is stored in the
`NavigationInProgress` entry and the entry is reinserted to wait for the
other. -/
theorem claim1_navigation_success_orderings
    (s : Handler) (id : NavigationId) (tx : TxId) (r : Response)
    (h : lookupA s.navigations id = some (.goto (NavigationInProgress.new tx))) :
    ((on_navigation_response s id r).2 = []
      ∧ lookupA (on_navigation_response s id r).1.navigations id
          = some (.goto ⟨false, some r, tx⟩)
      ∧ (on_navigation_lifecycle_completed
          (on_navigation_response s id r).1 (.ok ⟨id⟩)).2 = [.resp tx (.ok r)]
      ∧ lookupA (on_navigation_lifecycle_completed
          (on_navigation_response s id r).1 (.ok ⟨id⟩)).1.navigations id = none)
    ∧ ((on_navigation_lifecycle_completed s (.ok ⟨id⟩)).2 = []
      ∧ lookupA (on_navigation_lifecycle_completed s (.ok ⟨id⟩)).1.navigations id
          = some (.goto ⟨true, none, tx⟩)
      ∧ (on_navigation_response
          (on_navigation_lifecycle_completed s (.ok ⟨id⟩)).1 id r).2
          = [.resp tx (.ok r)]
      ∧ lookupA (on_navigation_response
          (on_navigation_lifecycle_completed s (.ok ⟨id⟩)).1 id r).1.navigations id
          = none) := by
  simp [on_navigation_response, on_navigation_lifecycle_completed, h,
    NavigationInProgress.new, NavigationInProgress.set_response,
    NavigationInProgress.set_navigated, lookupA_insertA_self, lookupA_eraseA_self]

def w1_state : Handler :=
  { Handler.empty with navigations := [(0, .goto (NavigationInProgress.new 3))] }

def w1_resp : Response :=
  { id := 1, result := some (.obj [("frameId", .str "F1")]), error := none,
    method := "Page.navigate" }

theorem claim1_navigation_success_orderings_witness :
    (on_navigation_lifecycle_completed
      (on_navigation_response w1_state 0 w1_resp).1 (.ok ⟨0⟩)).2
      = [.resp 3 (.ok w1_resp)] :=
  (claim1_navigation_success_orderings w1_state 0 3 w1_resp rfl).1.2.2.1

/-- Claim C2: a lifecycle `Err` whose navigation id has a live entry
completes that entry's reply channel with the error and drops the entry,
regardless of whether a response was already stored in it. -/
theorem claim2_lifecycle_error_completes
    (s : Handler) (err : NavigationError) (nav : NavigationInProgress)
    (h : lookupA s.navigations err.navigation_id = some (.goto nav)) :
    on_navigation_lifecycle_completed s (.error err)
      = ({ s with navigations := eraseA s.navigations err.navigation_id },
         [.resp nav.tx (.error err.toCdpError)]) := by
  simp [on_navigation_lifecycle_completed, h]

def w2_state : Handler :=
  { Handler.empty with
    navigations := [(5, .goto ⟨false, some w1_resp, 9⟩)] }

theorem claim2_lifecycle_error_completes_witness :
    on_navigation_lifecycle_completed w2_state (.error ⟨5, "ABORTED"⟩)
      = ({ w2_state with navigations := eraseA w2_state.navigations 5 },
         [.resp 9 (.error (NavigationError.toCdpError ⟨5, "ABORTED"⟩))]) :=
  claim2_lifecycle_error_completes w2_state ⟨5, "ABORTED"⟩ ⟨false, some w1_resp, 9⟩ rfl

/-- Claim C4 (refuting theorem): `on_attached_to_target` never touches the
session table — the source builds the `Session` value and sets the target's
session id but contains no `self.sessions.insert`, so no sequence of
AttachedToTarget events can ever make a session-id present in the table,
contradicting the claimed iff-invariant and its "inserts the created
Session" part. -/
theorem claim4_attached_never_inserts_session
    (s : Handler) (ev : EventAttachedToTarget) :
    (on_attached_to_target s ev).sessions = s.sessions := by
  simp [on_attached_to_target]

/-- Claim C7 (refuting theorem): on a DetachedFromTarget whose session is in
the table, the session is removed but the target registry — and hence every
target's session-id slot — is left completely unchanged, because
`target.session_id().take()` operates on a temporary. -/
theorem claim7_detach_leaves_target_slot
    (s : Handler) (ev : EventDetachedFromTarget) (sess : Session)
    (h : lookupA s.sessions ev.session_id = some sess) :
    (on_detached_from_target s ev).sessions = eraseA s.sessions ev.session_id
    ∧ (on_detached_from_target s ev).targets = s.targets := by
  simp [on_detached_from_target, h, Target.session_id_take, modifyA_id]

def w7_target : Target :=
  { target_id := "T1", ty := "page", session_id := some "S1", tx_page := none,
    inbox := [] }

def w7_state : Handler :=
  { Handler.empty with
    sessions := [("S1", Session.new "S1" "page" "T1")],
    targets := [("T1", w7_target)] }

theorem claim7_detach_leaves_target_slot_witness :
    (on_detached_from_target w7_state ⟨"S1"⟩).sessions
        = eraseA w7_state.sessions "S1"
    ∧ (on_detached_from_target w7_state ⟨"S1"⟩).targets = w7_state.targets :=
  claim7_detach_leaves_target_slot w7_state ⟨"S1"⟩ (Session.new "S1" "page" "T1") rfl

/-- Claim C3 (refuting theorem): the periodic-job branch of the composite
poll performs no eviction — an entry whose age exceeds `REQUEST_TIMEOUT`
survives a ready tick untouched and its caller receives nothing; and a late
response for that call-id still finds the pending entry and is dispatched to
the caller instead of being silently dropped. -/
theorem claim3_no_timeout_eviction
    (s : Handler) (callId : CallId) (tx : TxId) (issued now : Nat) (r : Response)
    (hp : lookupA s.pending_commands callId = some (.externalCommand tx, issued))
    (hexp : issued + REQUEST_TIMEOUT < now)
    (hr : r.id = callId) :
    poll_messages_and_tick s [] true now = .ok s []
    ∧ on_response s r
        = .ok { s with pending_commands := eraseA s.pending_commands callId }
            [.resp tx (.ok r)] := by
  constructor
  · simp [poll_messages_and_tick, drain_conn]
  · simp [on_response, hr, hp]

def w3_state : Handler :=
  { Handler.empty with
    pending_commands := [(1, (.externalCommand 4, 0))] }

def w3_resp : Response :=
  { id := 1, result := some (.obj [("product", .str "HeadlessChrome")]),
    error := none, method := "Browser.getVersion" }

theorem claim3_no_timeout_eviction_witness :
    poll_messages_and_tick w3_state [] true 40000 = .ok w3_state []
    ∧ on_response w3_state w3_resp
        = .ok { w3_state with
              pending_commands := eraseA w3_state.pending_commands 1 }
            [.resp 4 (.ok w3_resp)] :=
  claim3_no_timeout_eviction w3_state 1 4 0 40000 w3_resp rfl (by decide) rfl

/-- Pending CreateTarget entry whose response will reference a target id
that is absent from the registry. -/
def c5_state : Handler :=
  { Handler.empty with pending_commands := [(1, (.createTarget 7, 0))] }

/-- Successfully decodable CreateTarget response naming the unknown target
id T1. -/
def c5_resp : Response :=
  { id := 1, result := some (.obj [("targetId", .str "T1")]), error := none,
    method := "Target.createTarget" }

/-- Claim C5 (counterexample): a CreateTarget response that decodes
successfully but names a target id absent from the registry makes the
handler hit `panic!("Created target not present")` — the event loop
crashes and the caller's channel receives no structured error. -/
theorem claim5_counterexample :
    on_response c5_state c5_resp = .panic "Created target not present" := by
  simp [on_response, c5_state, c5_resp, lookupA, eraseA, to_command_response,
    decodeCreateTarget]

/-- Claim C5 (amended): whenever the pending entry for the response's call
id is a CreateTarget intent, the result slot decodes successfully, and the
decoded target id is not in the registry, `on_response` panics (it does not
fail the reply channel with a structured error). -/
theorem claim5_amended_missing_target_panics
    (s : Handler) (resp : Response) (tx : TxId) (t0 : Nat) (j : J) (tid : TargetId)
    (hp : lookupA s.pending_commands resp.id = some (.createTarget tx, t0))
    (hres : resp.result = some j)
    (hdec : decodeCreateTarget j = .ok tid)
    (hmiss : lookupA s.targets tid = none) :
    on_response s resp = .panic "Created target not present" := by
  simp [on_response, hp, to_command_response, hres, hdec, hmiss]

theorem claim5_amended_missing_target_panics_witness :
    on_response c5_state c5_resp = .panic "Created target not present" :=
  claim5_amended_missing_target_panics c5_state c5_resp 7 0
    (.obj [("targetId", .str "T1")]) "T1" rfl rfl rfl rfl

/-- State reached by processing TargetCreated(T1) then TargetDestroyed(T1)
from the empty handler. -/
def c6_state : Handler :=
  on_target_destroyed (on_target_created Handler.empty ⟨⟨"T1", "page"⟩⟩) ⟨"T1"⟩

/-- Claim C6 (counterexample): after processing TargetDestroyed the
target-ids list still holds the destroyed id while the registry does not —
the two are not the same multiset (not a permutation of each other). -/
theorem claim6_counterexample :
    ¬ c6_state.target_ids.Perm (c6_state.targets.map Prod.fst) := by
  decide

/-- Claim C6 (amended): TargetCreated with a fresh id appends the id to the
target-ids list and inserts the target into the registry, preserving the
key-multiset equality; TargetDestroyed removes the id from the registry
only, leaving it in the target-ids list, so the equality breaks until a
later poll tick prunes the stale id. -/
theorem claim6_amended_registry_list_sync :
    (∀ (s : Handler) (ev : EventTargetCreated),
      s.target_ids.Perm (s.targets.map Prod.fst) →
      lookupA s.targets ev.target_info.target_id = none →
      ((on_target_created s ev).target_ids.Perm
          ((on_target_created s ev).targets.map Prod.fst)
        ∧ ev.target_info.target_id ∈ (on_target_created s ev).target_ids
        ∧ lookupA (on_target_created s ev).targets ev.target_info.target_id
            = some (Target.new ev.target_info)))
    ∧ (∀ (s : Handler) (ev : EventTargetDestroyed) (t : Target),
      lookupA s.targets ev.target_id = some t →
      ev.target_id ∈ s.target_ids →
      (lookupA (on_target_destroyed s ev).targets ev.target_id = none
        ∧ ev.target_id ∈ (on_target_destroyed s ev).target_ids)) := by
  constructor
  · intro s ev hperm hfresh
    refine ⟨?_, ?_, ?_⟩
    · simp only [on_target_created, Target.new]
      rw [insertA_of_lookupA_none _ _ _ hfresh]
      simp only [List.map_append, List.map_cons, List.map_nil]
      exact hperm.append (List.Perm.refl _)
    · simp [on_target_created, Target.new]
    · simp [on_target_created, Target.new, lookupA_insertA_self]
  · intro s ev t hsome hmem
    unfold on_target_destroyed
    rw [hsome]
    rcases hsid : t.session_id with _ | sid <;>
      simp [hsid, lookupA_eraseA_self, hmem]

def w6c_state : Handler :=
  on_target_created Handler.empty ⟨⟨"T1", "page"⟩⟩

theorem claim6_amended_registry_list_sync_witness :
    ((w6c_state.target_ids.Perm (w6c_state.targets.map Prod.fst)
      ∧ "T1" ∈ w6c_state.target_ids
      ∧ lookupA w6c_state.targets "T1" = some (Target.new ⟨"T1", "page"⟩))
    ∧ (lookupA (on_target_destroyed w6c_state ⟨"T1"⟩).targets "T1" = none
      ∧ "T1" ∈ (on_target_destroyed w6c_state ⟨"T1"⟩).target_ids)) :=
  ⟨claim6_amended_registry_list_sync.1 Handler.empty ⟨⟨"T1", "page"⟩⟩
      (by decide) rfl,
   claim6_amended_registry_list_sync.2 w6c_state ⟨"T1"⟩
      (Target.new ⟨"T1", "page"⟩) rfl (by decide)⟩

theorem on_navigation_response_pending (s : Handler) (id : NavigationId)
    (r : Response) :
    (on_navigation_response s id r).1.pending_commands = s.pending_commands := by
  unfold on_navigation_response
  rcases h : lookupA s.navigations id with _ | ⟨nav⟩
  · rfl
  · cases nav with
    | goto n => by_cases hn : n.navigated <;> simp [hn]

/-- Claim C8: delivering the same response twice dispatches exactly once —
the first delivery removes the pending entry for the call id, and the
second delivery finds no pending entry, sends nothing, and leaves the
handler state unchanged. -/
theorem claim8_double_response_delivery
    (s : Handler) (resp : Response) (req : PendingRequest) (t0 : Nat)
    (s1 : Handler) (out1 : List Sent)
    (hp : lookupA s.pending_commands resp.id = some (req, t0))
    (h1 : on_response s resp = .ok s1 out1) :
    lookupA s1.pending_commands resp.id = none
    ∧ on_response s1 resp = .ok s1 [] := by
  have hpend : s1.pending_commands = eraseA s.pending_commands resp.id := by
    unfold on_response at h1
    rw [hp] at h1
    cases req with
    | createTarget tx =>
      rcases hc : to_command_response decodeCreateTarget resp with err | cr
      · simp only [hc] at h1
        cases h1
        rfl
      · simp only [hc] at h1
        rcases hm : lookupA s.targets (cr.result : TargetId) with _ | ⟨t⟩ <;>
          simp only [hm] at h1
        · exact StepResult.noConfusion h1
        · cases h1
          rfl
    | navigate id =>
      cases h1
      rw [on_navigation_response_pending]
    | externalCommand tx =>
      cases h1
      rfl
    | internalCommand tid =>
      cases h1
      rfl
  have hnone : lookupA s1.pending_commands resp.id = none := by
    rw [hpend]; exact lookupA_eraseA_self _ _
  refine ⟨hnone, ?_⟩
  unfold on_response
  rw [hnone]

def w8_state : Handler :=
  { Handler.empty with pending_commands := [(2, (.externalCommand 5, 0))] }

def w8_resp : Response :=
  { id := 2, result := some .null, error := none, method := "Browser.getVersion" }

def w8_state1 : Handler :=
  { w8_state with pending_commands := eraseA w8_state.pending_commands 2 }

theorem claim8_double_response_delivery_witness :
    lookupA w8_state1.pending_commands 2 = none
    ∧ on_response w8_state1 w8_resp = .ok w8_state1 [] :=
  claim8_double_response_delivery w8_state w8_resp (.externalCommand 5) 0
    w8_state1 [.resp 5 (.ok w8_resp)] rfl rfl

/-- Claim C9: a response whose result slot is present and decodes under the
command's declared response schema maps to `Ok` of a `CommandResponse` with
the same id, the decoded result and the same method (in particular encoding
then decoding through `to_command_response` is the identity on such
responses); a response without result but with an error maps to that error;
a response with neither maps to the NoResponse error. -/
theorem claim9_to_command_response_cases {R : Type}
    (decode : J → Except String R) (encode : R → J)
    (hrt : ∀ v, decode (encode v) = .ok v) (resp : Response) :
    (∀ j v, resp.result = some j → decode j = .ok v →
      to_command_response decode resp
        = .ok { id := resp.id, result := v, method := resp.method })
    ∧ (∀ e, resp.result = none → resp.error = some e →
      to_command_response decode resp = .error (.chrome e))
    ∧ (resp.result = none → resp.error = none →
      to_command_response decode resp = .error .noResponse)
    ∧ (∀ (v : R) (i : CallId) (m : String),
      to_command_response decode
        { id := i, result := some (encode v), error := none, method := m }
        = .ok { id := i, result := v, method := m }) := by
  refine ⟨?_, ?_, ?_, ?_⟩
  · intro j v hj hv
    simp [to_command_response, hj, hv]
  · intro e hres herr
    simp [to_command_response, hres, herr]
  · intro hres herr
    simp [to_command_response, hres, herr]
  · intro v i m
    simp [to_command_response, hrt]

def w9_decode : J → Except String Int := fun j =>
  match j with
  | .num n => .ok n
  | _ => .error "invalid type: expected a number"

theorem claim9_to_command_response_cases_witness :
    to_command_response w9_decode
      { id := 7, result := some (.num 42), error := none,
        method := "Browser.getVersion" }
      = .ok { id := 7, result := 42, method := "Browser.getVersion" } :=
  (claim9_to_command_response_cases w9_decode J.num (fun _ => rfl)
    { id := 7, result := some (.num 42), error := none,
      method := "Browser.getVersion" }).2.2.2 42 7 "Browser.getVersion"

/-- Claim C10: `HttpFuture` never surfaces the navigation outcome before the
command future has terminated — while the command future is unterminated the
navigation future is not polled (third component `false`); a successful
command reply is discarded and the poll returns `Pending` with the command
marked terminated; a command error resolves the whole future with that error
without polling the navigation future; and once the command is terminated a
poll is exactly a poll of the navigation future. -/
theorem claim10_httpfuture_ordering {γ : Type} :
    (∀ (cp : PollRes (Except CdpError γ))
       (np : PollRes (Except CdpError (Option HttpRequest))),
      (HttpFuture.poll ⟨false⟩ cp np).2.2 = false)
    ∧ (∀ (v : γ) (np : PollRes (Except CdpError (Option HttpRequest))),
      HttpFuture.poll ⟨false⟩ (.ready (.ok v)) np = (.pending, ⟨true⟩, false))
    ∧ (∀ (e : CdpError) (np : PollRes (Except CdpError (Option HttpRequest))),
      @HttpFuture.poll γ ⟨false⟩ (.ready (.error e)) np
        = (.ready (.error e), ⟨true⟩, false))
    ∧ (∀ (cp : PollRes (Except CdpError γ))
       (np : PollRes (Except CdpError (Option HttpRequest))),
      HttpFuture.poll ⟨true⟩ cp np = (np, ⟨true⟩, true)) := by
  refine ⟨?_, ?_, ?_, ?_⟩
  · intro cp np
    rcases cp with ⟨a⟩ | _
    · rcases a with v | e <;> simp [HttpFuture.poll]
    · simp [HttpFuture.poll]
  · intro v np
    simp [HttpFuture.poll]
  · intro e np
    simp [HttpFuture.poll]
  · intro cp np
    simp [HttpFuture.poll]
